import Mathlib

/-!
Shallow embedding of the XMODEM protocol engine of `src/xmodem.ts`
(class `Xmodem`, helpers `sendBlock`, `receiveBlock`, `writeFile`).
Bytes are modelled as `Nat`, JS `Buffer`s as `List Nat`, and the
event-driven `sendData` / `receiveData` closures as pure step functions
from an explicit state plus an inbound chunk to a new state plus the
observable effects (socket writes, file writes, teardown).
-/

set_option maxRecDepth 8000

namespace Xmodem

/-- Control byte `SOH = 0x01` (src/xmodem.ts:327). -/
def SOH : Nat := 0x01
/-- Control byte `EOT = 0x04` (src/xmodem.ts:328). -/
def EOT : Nat := 0x04
/-- Control byte `ACK = 0x06` (src/xmodem.ts:329). -/
def ACK : Nat := 0x06
/-- Control byte `NAK = 0x15` (src/xmodem.ts:330). -/
def NAK : Nat := 0x15
/-- Control byte `CAN = 0x18` (declared, unused; src/xmodem.ts:331). -/
def CAN : Nat := 0x18
/-- Padding byte `FILLER = 0x1a` (src/xmodem.ts:332). -/
def FILLER : Nat := 0x1a
/-- Mode-probe byte `CRC_MODE = 0x43` (src/xmodem.ts:333). -/
def CRC_MODE : Nat := 0x43

/-- `Xmodem.XMODEM_START_BLOCK = 1` (src/xmodem.ts:13). -/
def XMODEM_START_BLOCK : Nat := 1
/-- `Xmodem.XMODEM_MAX_ERRORS = 10` (src/xmodem.ts:15). -/
def XMODEM_MAX_ERRORS : Nat := 10
/-- `Xmodem.block_size = 128` (src/xmodem.ts:19). -/
def block_size : Nat := 128

/-- The transfer mode held in the mutable `Xmodem.XMODEM_OP_MODE`:
`"crc"` or `"normal"` (src/xmodem.ts:17). -/
inductive Mode where
  | crc
  | normal
deriving DecidableEq, Repr

/-- JS `Buffer.from([v])` byte coercion: the value is reduced to an
unsigned 8-bit byte (`v & 255`), also for negative inputs such as
`0xff - blockNr` when `blockNr > 0xff` (src/xmodem.ts:434). -/
def byteOf (v : Int) : Nat := (v % 256).toNat

/-- Fuel-driven core of `hexDigits`; the fuel is only there to make the
recursion structural, `hexDigits` always supplies enough of it. -/
def hexDigitsCore : Nat → Nat → List Nat
  | _, 0 => []
  | 0, n + 1 => [(n + 1) % 16]
  | fuel + 1, n + 1 => hexDigitsCore fuel ((n + 1) / 16) ++ [(n + 1) % 16]

/-- JS `Number.prototype.toString(16)` for a nonnegative integer:
its hexadecimal digits, most significant first, `[0]` for `0`. -/
def hexDigits (n : Nat) : List Nat :=
  if n = 0 then [0] else hexDigitsCore n n

/-- The padding in `sendBlock` making the hex string even-length
before `Buffer.from(str, "hex")` (src/xmodem.ts:442-444, 457-460):
a `"0"` is prepended when the digit count is odd. -/
def padEven (l : List Nat) : List Nat :=
  if l.length % 2 = 1 then 0 :: l else l

/-- The CRC-specific padding in `sendBlock` (src/xmodem.ts:446-448):
a 2-digit hex string is widened to 4 digits by prepending `"00"`. -/
def padCrc (l : List Nat) : List Nat :=
  if l.length = 2 then 0 :: 0 :: l else l

/-- JS `Buffer.from(str, "hex")`: consecutive pairs of hex digits
become bytes. -/
def hexPairs : List Nat → List Nat
  | a :: b :: rest => (16 * a + b) :: hexPairs rest
  | _ => []

/-- Modelled from the spec: the external `crc` package's
`crc.crc16xmodem` used at src/xmodem.ts:440 is not part of this
repository; per the spec it is CRC-16/XMODEM — polynomial `0x1021`,
initial value `0x0000`, no reflection — processing one byte by xoring
it into the high byte of the running CRC and shifting 8 times. -/
def crc16Update (c b : Nat) : Nat :=
  (List.range 8).foldl
    (fun acc _ =>
      if acc &&& 0x8000 ≠ 0 then ((acc <<< 1) ^^^ 0x1021) % 65536
      else (acc <<< 1) % 65536)
    ((c ^^^ (b <<< 8)) % 65536)

/-- Modelled from the spec: `crc.crc16xmodem(blockData)` — CRC-16/XMODEM
of the payload, starting from `0x0000`. -/
def crc16xmodem (blockData : List Nat) : Nat :=
  blockData.foldl crc16Update 0

/-- The CRC trailer bytes built by `sendBlock` in `"crc"` mode
(src/xmodem.ts:439-449): `crc16xmodem` of the payload rendered as a
hex string, padded to even length, widened from 2 to 4 digits, then
parsed back into bytes. -/
def crcTrailer (blockData : List Nat) : List Nat :=
  hexPairs (padCrc (padEven (hexDigits (crc16xmodem blockData))))

/-- The additive-checksum trailer bytes built by `sendBlock` in
`"normal"` mode (src/xmodem.ts:450-461): the sum of `sendBuffer`'s
bytes from index 3 on (the payload only), mod 256, rendered as a hex
string, padded to even length, parsed back into bytes. -/
def checksumTrailer (afterHeader : List Nat) : List Nat :=
  hexPairs (padEven (hexDigits ((afterHeader.foldl (· + ·) 0) % 256)))

/-- `sendBlock(socket, blockNr, blockData, mode)` (src/xmodem.ts:424-465)
without the socket: the frame it writes. The header is
`[SOH, blockNr, 0xff - blockNr]` with JS `Buffer` byte coercion, the
trailer is the mode's checksum of the payload. -/
def sendBlock (blockNr : Nat) (blockData : List Nat) (mode : Mode) : List Nat :=
  let sendBuffer := [SOH, byteOf blockNr, byteOf (0xff - (blockNr : Int))] ++ blockData
  match mode with
  | .crc => sendBuffer ++ crcTrailer blockData
  | .normal => sendBuffer ++ checksumTrailer (sendBuffer.drop 3)

/-- The spec's `FrameError` taxonomy, labelling the failure branches of
`receiveBlock` (src/xmodem.ts:481-514): `NotData` is the final `else`
(`cmd !== SOH`, "ERROR!"), `Corrupt` the complement-check failure
("Block integrity check failed"), `OutOfSync` the sequence mismatch
("Synch issue"), `SizeMismatch` the length-check failure. -/
inductive FrameError where
  | NotData
  | Corrupt
  | OutOfSync
  | SizeMismatch
deriving DecidableEq, Repr

/-- The observable outcome of one `receiveBlock` call: the bytes it
writes to the socket, the payload passed to the acceptance callback
(if any), and the `FrameError` label of the branch taken (if any). -/
structure RecvBlockOutcome where
  writes : List Nat
  accepted : Option (List Nat)
  error : Option FrameError
deriving DecidableEq, Repr

/-- `receiveBlock(socket, blockNr, blockData, block_size, mode, callback)`
(src/xmodem.ts:467-515). `blockData[1]` / `blockData[2]` are `Option`s
because a JS out-of-range read yields `undefined`, whose `parseInt` is
`NaN` and fails the `block + block_check === 0xff` comparison. On the
success path the payload is `blockData.slice(3, length - checksum_length)`
and is accepted iff its length equals `block_size`; the trailer bytes
are never compared against a computed checksum. -/
def receiveBlock (blockNr : Nat) (blockData : List Nat) (bsize : Nat)
    (mode : Mode) : RecvBlockOutcome :=
  let checksum_length := if mode = Mode.crc then 2 else 1
  if blockData.get? 0 = some SOH then
    match blockData.get? 1, blockData.get? 2 with
    | some block, some block_check =>
      if block + block_check = 0xff then
        if block = blockNr % 0x100 then
          let current_block := (blockData.take (blockData.length - checksum_length)).drop 3
          if current_block.length = bsize then
            { writes := [ACK], accepted := some current_block, error := none }
          else
            { writes := [NAK], accepted := none, error := some .SizeMismatch }
        else
          { writes := [], accepted := none, error := some .OutOfSync }
      else
        { writes := [NAK], accepted := none, error := some .Corrupt }
    | _, _ =>
      { writes := [NAK], accepted := none, error := some .Corrupt }
  else
    { writes := [], accepted := none, error := some .NotData }

/-- The trimming loop run on the final chunk when EOT arrives
(src/xmodem.ts:278-288): scan from the last index down; `continue` past
`FILLER` bytes; at the first non-filler byte at index `i`, replace the
chunk by `chunk.slice(0, i + 1)` and `break`. If the loop runs off the
front without a `break` (every byte is `FILLER`, or the chunk is empty)
the chunk is left untouched. Implemented on the reversed chunk. -/
def trimScanRev : List Nat → Option (List Nat)
  | [] => none
  | b :: rest => if b = FILLER then trimScanRev rest else some (b :: rest)

/-- The final chunk after the EOT trimming loop. -/
def trimFinalChunk (chunk : List Nat) : List Nat :=
  match trimScanRev chunk.reverse with
  | some kept => kept.reverse
  | none => chunk

/-- `writeFile(buffer, filename, callback)` (src/xmodem.ts:517-533):
writes each entry of the packaged buffer to the file stream in order,
so the persisted file contents are their concatenation. -/
def writeFile (buffer : List (List Nat)) : List Nat :=
  buffer.flatten

/-- The mutable state captured by the `receiveData` closure
(src/xmodem.ts:192-309): the expected block number, the consecutive-try
counter, the `transfer_initiated` flag, the reassembly buffer
`packagedBuffer` (index 0 holds the `""` filler placeholder, modelled
as the empty chunk), and whether the `data` listener was removed. -/
structure ReceiverState where
  blockNumber : Nat
  tryCounter : Nat
  transfer_initiated : Bool
  packagedBuffer : List (List Nat)
  listenerRemoved : Bool
deriving DecidableEq, Repr

/-- The receiver state right after `receive` sets up (src/xmodem.ts:193-204):
expected block `XMODEM_START_BLOCK`, zero tries, transfer not initiated,
buffer holding only the index-0 placeholder. -/
def initialReceiverState : ReceiverState :=
  { blockNumber := XMODEM_START_BLOCK
    tryCounter := 0
    transfer_initiated := false
    packagedBuffer := [[]]
    listenerRemoved := false }

/-- The observable effects of one `receiveData` invocation: socket
writes, the buffer handed to `writeFile` (if called), and whether the
socket was torn down (`destroy`/`close`). -/
structure RecvEffects where
  writes : List Nat
  fileWritten : Option (List (List Nat))
  socketTornDown : Bool
deriving DecidableEq, Repr

/-- One invocation of the `receiveData` listener (src/xmodem.ts:247-306)
on an inbound chunk `data`, as a pure step: `tryCounter` is incremented
unconditionally, then the four branches — NAK-at-start (log only),
SOH within the error budget (delegate to `receiveBlock`; on acceptance
push the payload, zero the try counter, advance the block number), EOT
(ACK, decrement the block number, trim the final chunk, `writeFile`,
tear down, remove the listener), and the unexpected-data `else`
(log only). The op mode is read from the module state, passed here as
a parameter. -/
def receiveData (mode : Mode) (s : ReceiverState) (data : List Nat) :
    ReceiverState × RecvEffects :=
  let s := { s with tryCounter := s.tryCounter + 1 }
  if data.get? 0 = some NAK ∧ s.blockNumber = XMODEM_START_BLOCK then
    (s, { writes := [], fileWritten := none, socketTornDown := false })
  else if data.get? 0 = some SOH ∧ s.tryCounter ≤ XMODEM_MAX_ERRORS then
    let s := { s with transfer_initiated := true }
    let o := receiveBlock s.blockNumber data block_size mode
    match o.accepted with
    | some current_block =>
      ({ s with
          packagedBuffer := s.packagedBuffer ++ [current_block]
          tryCounter := 0
          blockNumber := s.blockNumber + 1 },
       { writes := o.writes, fileWritten := none, socketTornDown := false })
    | none =>
      (s, { writes := o.writes, fileWritten := none, socketTornDown := false })
  else if data.get? 0 = some EOT then
    let bn := s.blockNumber - 1
    let trimmed :=
      match s.packagedBuffer.get? bn with
      | some chunk => s.packagedBuffer.set bn (trimFinalChunk chunk)
      | none => s.packagedBuffer
    ({ s with blockNumber := bn, packagedBuffer := trimmed, listenerRemoved := true },
     { writes := [ACK], fileWritten := some trimmed, socketTornDown := true })
  else
    (s, { writes := [], fileWritten := none, socketTornDown := false })

/-- Feeding a list of inbound chunks to `receiveData` in order,
collecting each invocation's effects. -/
def runReceiver (mode : Mode) (s : ReceiverState) :
    List (List Nat) → ReceiverState × List RecvEffects
  | [] => (s, [])
  | d :: ds =>
    let (s1, e) := receiveData mode s d
    let (s2, es) := runReceiver mode s1 ds
    (s2, e :: es)

/-- The mutable state captured by the `sendData` closure
(src/xmodem.ts:34-183): the block cursor `blockNumber`, the `sent_eof`
flag, the module-level op mode, and whether the `data` listener was
removed (the `stop` completion). The pre-chunked `packagedBuffer`
(index 0 holds the filler placeholder) is immutable and passed
separately. -/
structure SenderState where
  blockNumber : Nat
  sent_eof : Bool
  mode : Mode
  listenerRemoved : Bool
deriving DecidableEq, Repr

/-- Chunking of the payload into `block_size`-sized blocks padded with
`FILLER`, plus the index-0 placeholder (src/xmodem.ts:43-55): each
iteration takes the next `block_size` bytes, filling positions past the
end of the remaining data with `FILLER`; the loop runs while data
remains. -/
def packageBuffer : Nat → List Nat → List (List Nat)
  | _, [] => []
  | 0, _ :: _ => []
  | bsize + 1, d :: ds =>
    ((d :: ds).take (bsize + 1) ++ List.replicate (bsize + 1 - (d :: ds).length) FILLER)
      :: packageBuffer (bsize + 1) ((d :: ds).drop (bsize + 1))
termination_by _ l => l.length
decreasing_by simp [List.length_drop]; omega

/-- The sender's packaged buffer for a payload: the filler placeholder
(modelled as the empty chunk) followed by the padded blocks. -/
def senderBuffer (bsize : Nat) (dataBuffer : List Nat) : List (List Nat) :=
  [] :: packageBuffer bsize dataBuffer

/-- The sender state when `send` attaches `sendData`
(src/xmodem.ts:34-39): cursor at `XMODEM_START_BLOCK`, EOT not sent,
the module's current mode. -/
def initialSenderState (mode : Mode) : SenderState :=
  { blockNumber := XMODEM_START_BLOCK
    sent_eof := false
    mode := mode
    listenerRemoved := false }

/-- One invocation of the `sendData` listener (src/xmodem.ts:64-181) on
an inbound chunk `data`, as a pure step returning the new state and
the list of socket writes (each a frame or a control byte). Branches:
`C` at the start block adopts crc mode and sends block 1; NAK at the
start block adopts checksum mode and sends block 1; ACK past the start
block sends the next block, or EOT when the buffer is exhausted
(first time), or completes and removes the listener (second time);
NAK past the start block resends EOT when the transfer had reached EOT,
otherwise decrements the cursor and resends the previous block;
anything else is logged and ignored. -/
def sendData (packagedBuffer : List (List Nat)) (s : SenderState)
    (data : List Nat) : SenderState × List (List Nat) :=
  if data.get? 0 = some CRC_MODE ∧ s.blockNumber = XMODEM_START_BLOCK then
    let s := { s with mode := Mode.crc }
    if packagedBuffer.length > s.blockNumber then
      ({ s with blockNumber := s.blockNumber + 1 },
       [sendBlock s.blockNumber (packagedBuffer.getD s.blockNumber []) s.mode])
    else (s, [])
  else if data.get? 0 = some NAK ∧ s.blockNumber = XMODEM_START_BLOCK then
    let s := { s with mode := Mode.normal }
    if packagedBuffer.length > s.blockNumber then
      ({ s with blockNumber := s.blockNumber + 1 },
       [sendBlock s.blockNumber (packagedBuffer.getD s.blockNumber []) s.mode])
    else (s, [])
  else if data.get? 0 = some ACK ∧ s.blockNumber > XMODEM_START_BLOCK then
    if packagedBuffer.length > s.blockNumber then
      ({ s with blockNumber := s.blockNumber + 1 },
       [sendBlock s.blockNumber (packagedBuffer.getD s.blockNumber []) s.mode])
    else if packagedBuffer.length = s.blockNumber then
      if s.sent_eof = false then
        ({ s with sent_eof := true }, [[EOT]])
      else
        ({ s with listenerRemoved := true }, [])
    else (s, [])
  else if data.get? 0 = some NAK ∧ s.blockNumber > XMODEM_START_BLOCK then
    if s.blockNumber = packagedBuffer.length ∧ s.sent_eof then
      (s, [[EOT]])
    else
      let s := { s with blockNumber := s.blockNumber - 1 }
      if packagedBuffer.length > s.blockNumber then
        ({ s with blockNumber := s.blockNumber + 1 },
         [sendBlock s.blockNumber (packagedBuffer.getD s.blockNumber []) s.mode])
      else (s, [])
  else (s, [])

/-- The trailer `sendBlock` appends for a payload in a given mode. -/
def trailer (mode : Mode) (blockData : List Nat) : List Nat :=
  match mode with
  | .crc => crcTrailer blockData
  | .normal => checksumTrailer blockData

/-- Width of the trailer expected by `receiveBlock`'s slicing. -/
def checksumLength (mode : Mode) : Nat :=
  if mode = Mode.crc then 2 else 1

end Xmodem

namespace Xmodem

lemma hexDigitsCore_eq_digits :
    ∀ fuel n : Nat, n ≤ fuel → hexDigitsCore fuel n = (Nat.digits 16 n).reverse := by
  intro fuel
  induction fuel with
  | zero =>
    intro n h
    have : n = 0 := by omega
    subst this
    simp [hexDigitsCore]
  | succ f ih =>
    intro n h
    match n with
    | 0 => simp [hexDigitsCore]
    | m + 1 =>
      have hstep : hexDigitsCore (f + 1) (m + 1) =
          hexDigitsCore f ((m + 1) / 16) ++ [(m + 1) % 16] := rfl
      have hdiv : (m + 1) / 16 ≤ f := by
        have := Nat.div_lt_self (Nat.succ_pos m) (by norm_num : (1:Nat) < 16)
        omega
      rw [hstep, ih _ hdiv,
        Nat.digits_def' (by norm_num : (1:Nat) < 16) (Nat.succ_pos m)]
      simp

lemma hexDigits_eq_digits (v : Nat) (h : v ≠ 0) :
    hexDigits v = (Nat.digits 16 v).reverse := by
  unfold hexDigits
  rw [if_neg h]
  exact hexDigitsCore_eq_digits v v le_rfl

lemma digits16_of_lt (v : Nat) (h0 : 0 < v) (h : v < 16) :
    Nat.digits 16 v = [v] := by
  rw [Nat.digits_def' (by norm_num : (1:Nat) < 16) h0,
    Nat.div_eq_of_lt h, Nat.digits_zero, Nat.mod_eq_of_lt h]

lemma hexBytes1 (v : Nat) (h : v < 256) : hexPairs (padEven (hexDigits v)) = [v] := by
  by_cases h0 : v = 0
  · subst h0; decide
  by_cases h16 : v < 16
  · rw [hexDigits_eq_digits v h0, digits16_of_lt v (Nat.pos_of_ne_zero h0) h16]
    simp [padEven, hexPairs]
  · rw [hexDigits_eq_digits v h0,
      Nat.digits_def' (by norm_num : (1:Nat) < 16) (Nat.pos_of_ne_zero h0),
      digits16_of_lt (v / 16) (by omega) (by omega)]
    simp [padEven, hexPairs]
    omega

lemma hexBytes2 (v : Nat) (h : v < 65536) :
    hexPairs (padCrc (padEven (hexDigits v))) = [v / 256, v % 256] := by
  by_cases h0 : v = 0
  · subst h0; decide
  by_cases h16 : v < 16
  · rw [hexDigits_eq_digits v h0, digits16_of_lt v (Nat.pos_of_ne_zero h0) h16]
    simp [padEven, padCrc, hexPairs]
    omega
  by_cases h256 : v < 256
  · rw [hexDigits_eq_digits v h0,
      Nat.digits_def' (by norm_num : (1:Nat) < 16) (Nat.pos_of_ne_zero h0),
      digits16_of_lt (v / 16) (by omega) (by omega)]
    simp [padEven, padCrc, hexPairs]
    omega
  by_cases h4096 : v < 4096
  · rw [hexDigits_eq_digits v h0,
      Nat.digits_def' (by norm_num : (1:Nat) < 16) (Nat.pos_of_ne_zero h0),
      Nat.digits_def' (by norm_num : (1:Nat) < 16) (by omega : 0 < v / 16),
      digits16_of_lt (v / 16 / 16) (by omega) (by omega)]
    simp [padEven, padCrc, hexPairs]
    omega
  · rw [hexDigits_eq_digits v h0,
      Nat.digits_def' (by norm_num : (1:Nat) < 16) (Nat.pos_of_ne_zero h0),
      Nat.digits_def' (by norm_num : (1:Nat) < 16) (by omega : 0 < v / 16),
      Nat.digits_def' (by norm_num : (1:Nat) < 16) (by omega : 0 < v / 16 / 16),
      digits16_of_lt (v / 16 / 16 / 16) (by omega) (by omega)]
    simp [padEven, padCrc, hexPairs]
    omega

lemma crc16Update_lt (c b : Nat) : crc16Update c b < 65536 := by
  unfold crc16Update
  rw [List.range_succ, List.foldl_append]
  simp only [List.foldl_cons, List.foldl_nil]
  split <;> exact Nat.mod_lt _ (by norm_num)

lemma foldl_crc16_lt :
    ∀ (l : List Nat) (c : Nat), c < 65536 → List.foldl crc16Update c l < 65536
  | [], _, h => h
  | a :: t, c, _ => foldl_crc16_lt t (crc16Update c a) (crc16Update_lt c a)

lemma crc16xmodem_lt (l : List Nat) : crc16xmodem l < 65536 :=
  foldl_crc16_lt l 0 (by norm_num)

lemma crcTrailer_eq (blockData : List Nat) :
    crcTrailer blockData =
      [crc16xmodem blockData / 256, crc16xmodem blockData % 256] :=
  hexBytes2 _ (crc16xmodem_lt blockData)

lemma checksumTrailer_eq (l : List Nat) :
    checksumTrailer l = [(l.foldl (· + ·) 0) % 256] :=
  hexBytes1 _ (Nat.mod_lt _ (by norm_num))

lemma byteOf_nat (n : Nat) : byteOf n = n % 256 := by
  unfold byteOf
  omega

lemma byteOf_compl (n : Nat) : byteOf (0xff - (n : Int)) = 255 - n % 256 := by
  unfold byteOf
  omega

lemma sendBlock_eq (blockNr : Nat) (blockData : List Nat) (mode : Mode) :
    sendBlock blockNr blockData mode =
      SOH :: (blockNr % 256) :: (255 - blockNr % 256) ::
        (blockData ++ trailer mode blockData) := by
  cases mode <;>
    simp [sendBlock, trailer, byteOf_nat, byteOf_compl, List.append_assoc]

lemma trailer_length (mode : Mode) (blockData : List Nat) :
    (trailer mode blockData).length = checksumLength mode := by
  cases mode <;>
    simp [trailer, checksumLength, crcTrailer_eq, checksumTrailer_eq]

lemma receiveBlock_accepts (blockNr : Nat) (payload tr : List Nat) (mode : Mode)
    (htl : tr.length = if mode = Mode.crc then 2 else 1) :
    receiveBlock blockNr
      (SOH :: (blockNr % 256) :: (255 - blockNr % 256) :: (payload ++ tr))
      payload.length mode =
      { writes := [ACK], accepted := some payload, error := none } := by
  have hk : blockNr % 256 < 256 := Nat.mod_lt _ (by norm_num)
  have hcompl : blockNr % 256 + (255 - blockNr % 256) = 0xff := by omega
  unfold receiveBlock
  simp only [List.get?_cons_zero, List.get?_cons_succ, if_pos rfl, hcompl]
  have hcb : ((SOH :: (blockNr % 256) :: (255 - blockNr % 256) :: (payload ++ tr)).take
      ((SOH :: (blockNr % 256) :: (255 - blockNr % 256) :: (payload ++ tr)).length -
        (if mode = Mode.crc then 2 else 1))).drop 3 = payload := by
    rw [List.drop_take]
    have h1 : (SOH :: (blockNr % 256) :: (255 - blockNr % 256) :: (payload ++ tr)).length -
        (if mode = Mode.crc then 2 else 1) - 3 = payload.length := by
      cases mode <;> simp_all
    rw [h1]
    simp [List.take_left]
  rw [hcb]
  simp

/-- C2: decoding a `sendBlock`-built frame with the matching expected
sequence number, payload length and mode accepts it, ACKs it, and
returns exactly the original payload. -/
theorem C2_encode_decode_roundtrip (blockNr : Nat) (payload : List Nat) (mode : Mode)
    (_hp : ∀ b ∈ payload, b < 256) :
    receiveBlock blockNr (sendBlock blockNr payload mode) payload.length mode =
      { writes := [ACK], accepted := some payload, error := none } := by
  rw [sendBlock_eq]
  exact receiveBlock_accepts blockNr payload (trailer mode payload) mode
    (by simpa [checksumLength] using trailer_length mode payload)

/-- C2 witness: the round-trip theorem applied at block 1,
payload `[0x41, 0x42]`, checksum mode. -/
theorem C2_encode_decode_roundtrip_witness :
    (∀ b ∈ [0x41, 0x42], b < 256) ∧
    receiveBlock 1 (sendBlock 1 [0x41, 0x42] Mode.normal) 2 Mode.normal =
      { writes := [ACK], accepted := some [0x41, 0x42], error := none } :=
  ⟨by decide, C2_encode_decode_roundtrip 1 [0x41, 0x42] Mode.normal (by decide)⟩

/-- C5: in checksum mode the encoder appends exactly one trailer byte,
the sum of the payload bytes mod 256; the header bytes are not summed. -/
theorem C5_checksum_trailer (blockNr : Nat) (payload : List Nat)
    (_hp : ∀ b ∈ payload, b < 256) :
    sendBlock blockNr payload Mode.normal =
      (SOH :: (blockNr % 256) :: (255 - blockNr % 256) :: payload) ++
        [(payload.foldl (· + ·) 0) % 256] := by
  rw [sendBlock_eq]
  simp [trailer, checksumTrailer_eq]

/-- C5 witness: the checksum-trailer theorem applied at block 1,
payload `[0xFF, 0x02]`, whose byte sum is `0x101`, so the trailer
byte is `0x01`. -/
theorem C5_checksum_trailer_witness :
    (∀ b ∈ [0xFF, 0x02], b < 256) ∧
    sendBlock 1 [0xFF, 0x02] Mode.normal =
      (SOH :: 1 :: 0xFE :: [0xFF, 0x02]) ++ [(([0xFF, 0x02].foldl (· + ·) 0)) % 256] :=
  ⟨by decide, C5_checksum_trailer 1 [0xFF, 0x02] (by decide)⟩

/-- C6: in crc mode the encoder appends exactly two trailer bytes, the
CRC-16/XMODEM of the payload, most significant byte first. -/
theorem C6_crc_trailer (blockNr : Nat) (payload : List Nat)
    (_hp : ∀ b ∈ payload, b < 256) :
    sendBlock blockNr payload Mode.crc =
      (SOH :: (blockNr % 256) :: (255 - blockNr % 256) :: payload) ++
        [crc16xmodem payload / 256, crc16xmodem payload % 256] := by
  rw [sendBlock_eq]
  simp [trailer, crcTrailer_eq]

/-- C6 witness: the crc-trailer theorem applied at block 1 and payload
`[0x41]` (CRC-16/XMODEM `0x58E5`, trailer `[0x58, 0xE5]`). -/
theorem C6_crc_trailer_witness :
    (∀ b ∈ [0x41], b < 256) ∧
    sendBlock 1 [0x41] Mode.crc =
      (SOH :: 1 :: 0xFE :: [0x41]) ++ [crc16xmodem [0x41] / 256, crc16xmodem [0x41] % 256] :=
  ⟨by decide, C6_crc_trailer 1 [0x41] (by decide)⟩

/-- CRC-16/XMODEM reference vector: the CRC of the ASCII string
`"123456789"` is `0x31C3`. -/
theorem crc16xmodem_check_value :
    crc16xmodem [0x31, 0x32, 0x33, 0x34, 0x35, 0x36, 0x37, 0x38, 0x39] = 0x31C3 := by
  decide

/-- C7: block number 256 encodes with sequence byte `0x00` and
complement byte `0xFF`, and the receiver's decoder accepts the
resulting frame when its expected block number is 256. -/
theorem C7_sequence_wraparound :
    (sendBlock 256 (List.replicate 128 0x00) Mode.normal).get? 1 = some 0x00 ∧
    (sendBlock 256 (List.replicate 128 0x00) Mode.normal).get? 2 = some 0xFF ∧
    receiveBlock 256 (sendBlock 256 (List.replicate 128 0x00) Mode.normal) 128 Mode.normal =
      { writes := [ACK], accepted := some (List.replicate 128 0x00), error := none } := by
  decide

/-- C8: the block decoder writes NAK exactly on the `Corrupt` and
`SizeMismatch` branches, and writes nothing exactly on the `NotData`
and `OutOfSync` branches (on success it writes ACK). -/
theorem C8_nak_iff_corrupt_or_size_mismatch (blockNr : Nat) (blockData : List Nat)
    (bsize : Nat) (mode : Mode) :
    ((receiveBlock blockNr blockData bsize mode).writes = [NAK] ↔
      (receiveBlock blockNr blockData bsize mode).error = some FrameError.Corrupt ∨
      (receiveBlock blockNr blockData bsize mode).error = some FrameError.SizeMismatch) ∧
    ((receiveBlock blockNr blockData bsize mode).writes = [] ↔
      (receiveBlock blockNr blockData bsize mode).error = some FrameError.NotData ∨
      (receiveBlock blockNr blockData bsize mode).error = some FrameError.OutOfSync) := by
  unfold receiveBlock
  repeat' split
  all_goals try simp [ACK, NAK]
  all_goals (split <;> simp [ACK, NAK])

/-- C1 (exhibiting the defect): a frame whose header is structurally
valid — SOH, sequence 1 with complement `0xFE`, a 128-byte payload —
but whose trailer byte `0xFF` differs from the checksum engine's output
`0x00` for that payload, is nevertheless ACKed and appended to the
reassembly buffer by the receiver: the trailer is never validated. -/
theorem C1_corrupt_trailer_accepted :
    checksumTrailer (List.replicate 128 0x00) = [0x00] ∧
    (0xFF : Nat) ≠ 0x00 ∧
    receiveData Mode.normal initialReceiverState
        (SOH :: 0x01 :: 0xFE :: (List.replicate 128 0x00 ++ [0xFF])) =
      ({ blockNumber := 2, tryCounter := 0, transfer_initiated := true,
         packagedBuffer := [[], List.replicate 128 0x00], listenerRemoved := false },
       { writes := [ACK], fileWritten := none, socketTornDown := false }) := by
  decide

/-- C3 (exhibiting the defect): feeding `maxErrors + 1 = 11` consecutive
corrupt frames for the same expected sequence number NAKs the first 10,
then silently ignores the 11th — no failure outcome is ever produced:
the storage writer is never invoked, the transport is never released,
the listener stays attached, and the state is left waiting for the same
block. -/
theorem C3_retry_exhaustion_unreported :
    XMODEM_MAX_ERRORS + 1 = 11 ∧
    (runReceiver Mode.normal initialReceiverState
        (List.replicate 11 [SOH, 0x01, 0x00])).2.map RecvEffects.writes =
      List.replicate 10 [NAK] ++ [[]] ∧
    (∀ e ∈ (runReceiver Mode.normal initialReceiverState
        (List.replicate 11 [SOH, 0x01, 0x00])).2,
      e.fileWritten = none ∧ e.socketTornDown = false) ∧
    (runReceiver Mode.normal initialReceiverState
        (List.replicate 11 [SOH, 0x01, 0x00])).1 =
      { blockNumber := 1, tryCounter := 11, transfer_initiated := true,
        packagedBuffer := [[]], listenerRemoved := false } := by
  decide

/-- C4 counterexample: on EOT, a final chunk consisting entirely of
filler bytes is persisted unchanged — the trimming loop never fires its
`break`, so the chunk does not collapse to the empty chunk as claimed. -/
theorem C4_all_filler_chunk_not_collapsed :
    (receiveData Mode.normal
        { blockNumber := 2, tryCounter := 0, transfer_initiated := true,
          packagedBuffer := [[], [FILLER, FILLER]], listenerRemoved := false }
        [EOT]).2.fileWritten = some [[], [FILLER, FILLER]] ∧
    [FILLER, FILLER] ≠ ([] : List Nat) := by
  decide

lemma trimScanRev_all_filler :
    ∀ c : List Nat, (∀ b ∈ c, b = FILLER) → trimScanRev c = none
  | [], _ => rfl
  | b :: rest, h => by
    have hb : b = FILLER := h b (List.mem_cons_self b rest)
    show (if b = FILLER then trimScanRev rest else some (b :: rest)) = none
    rw [if_pos hb]
    exact trimScanRev_all_filler rest fun x hx => h x (List.mem_cons_of_mem b hx)

lemma trimFinalChunk_all_filler (c : List Nat) (h : ∀ b ∈ c, b = FILLER) :
    trimFinalChunk c = c := by
  unfold trimFinalChunk
  rw [trimScanRev_all_filler c.reverse (fun b hb => h b (List.mem_reverse.mp hb))]

/-- C4 amended: on receipt of EOT the receiver replaces the final chunk
of the reassembly buffer by its trailing-filler-trimmed form (scan from
the end, truncate after the first non-filler byte) and hands the buffer
to the storage writer; `[0x41, 0x42, 0x1A, 0x1A]` becomes
`[0x41, 0x42]`, but a final chunk consisting entirely of filler bytes
is left unchanged rather than collapsing to the empty chunk. -/
theorem C4_eot_trims_trailing_filler (mode : Mode) (s : ReceiverState) (chunk : List Nat)
    (hchunk : s.packagedBuffer.get? (s.blockNumber - 1) = some chunk) :
    (receiveData mode s [EOT]).2 =
      { writes := [ACK],
        fileWritten :=
          some (s.packagedBuffer.set (s.blockNumber - 1) (trimFinalChunk chunk)),
        socketTornDown := true } ∧
    trimFinalChunk [0x41, 0x42, FILLER, FILLER] = [0x41, 0x42] ∧
    (∀ c : List Nat, (∀ b ∈ c, b = FILLER) → trimFinalChunk c = c) := by
  refine ⟨?_, by decide, trimFinalChunk_all_filler⟩
  rw [List.get?_eq_getElem?] at hchunk
  unfold receiveData
  simp [EOT, NAK, SOH, hchunk]

/-- C4 amended witness: the EOT-trimming theorem applied to a receiver
state whose final chunk is `[0x41, 0x42, 0x1A, 0x1A]`. -/
theorem C4_eot_trims_trailing_filler_witness :
    ([[], [0x41, 0x42, FILLER, FILLER]].get? (2 - 1) =
      some [0x41, 0x42, FILLER, FILLER]) ∧
    ((receiveData Mode.normal
        { blockNumber := 2, tryCounter := 0, transfer_initiated := true,
          packagedBuffer := [[], [0x41, 0x42, FILLER, FILLER]], listenerRemoved := false }
        [EOT]).2 =
      { writes := [ACK],
        fileWritten := some ([[], [0x41, 0x42, FILLER, FILLER]].set (2 - 1)
          (trimFinalChunk [0x41, 0x42, FILLER, FILLER])),
        socketTornDown := true } ∧
    trimFinalChunk [0x41, 0x42, FILLER, FILLER] = [0x41, 0x42] ∧
    (∀ c : List Nat, (∀ b ∈ c, b = FILLER) → trimFinalChunk c = c)) :=
  ⟨by decide,
    C4_eot_trims_trailing_filler Mode.normal
      { blockNumber := 2, tryCounter := 0, transfer_initiated := true,
        packagedBuffer := [[], [0x41, 0x42, FILLER, FILLER]], listenerRemoved := false }
      [0x41, 0x42, FILLER, FILLER] (by decide)⟩

/-- C10: EOT arriving while no data block has been accepted (expected
block still at the start block) is still ACKed; the storage writer is
invoked with the reassembly buffer holding only the index-0 filler
placeholder (so the persisted file is empty), the socket is torn down,
and the inbound listener is detached — no error, no crash. -/
theorem C10_eot_before_any_block :
    receiveData Mode.crc initialReceiverState [EOT] =
      ({ blockNumber := 0, tryCounter := 1, transfer_initiated := false,
         packagedBuffer := [[]], listenerRemoved := true },
       { writes := [ACK], fileWritten := some [[]], socketTornDown := true }) ∧
    writeFile [[]] = [] := by
  decide

lemma sendData_nak_resend (packagedBuffer : List (List Nat)) (bn : Nat)
    (mode : Mode) (lr : Bool)
    (h1 : XMODEM_START_BLOCK < bn) (h2 : bn ≤ packagedBuffer.length) :
    sendData packagedBuffer ⟨bn, false, mode, lr⟩ [NAK] =
      (⟨bn, false, mode, lr⟩,
       [sendBlock (bn - 1) (packagedBuffer.getD (bn - 1) []) mode]) := by
  simp only [XMODEM_START_BLOCK] at h1 h2
  have hbn : bn - 1 + 1 = bn := by omega
  have hlt : bn - 1 < packagedBuffer.length := by omega
  unfold sendData
  simp [NAK, CRC_MODE, ACK, XMODEM_START_BLOCK, hbn, hlt]
  rw [if_neg (by omega), if_pos h1]

/-- C9: a sender past the start block that receives NAK resends EOT
without changing state when EOT was already sent (the cursor having
reached the end of the buffer), and otherwise retransmits the just-sent
block verbatim — the very frame `sendBlock` produced for the previous
cursor position — leaving the whole state unchanged, so consecutive
NAKs elicit the identical block every time. -/
theorem C9_nak_resends_identical_block (packagedBuffer : List (List Nat))
    (s : SenderState)
    (h1 : XMODEM_START_BLOCK < s.blockNumber)
    (h2 : s.blockNumber ≤ packagedBuffer.length) :
    (s.sent_eof = true → s.blockNumber = packagedBuffer.length →
      sendData packagedBuffer s [NAK] = (s, [[EOT]])) ∧
    (s.sent_eof = false →
      sendData packagedBuffer s [NAK] =
        (s, [sendBlock (s.blockNumber - 1)
              (packagedBuffer.getD (s.blockNumber - 1) []) s.mode])) ∧
    (s.sent_eof = false →
      sendData packagedBuffer ((sendData packagedBuffer s [NAK]).1) [NAK] =
        sendData packagedBuffer s [NAK]) := by
  obtain ⟨bn, eof, mode, lr⟩ := s
  simp only [XMODEM_START_BLOCK] at h1 h2
  refine ⟨?_, ?_, ?_⟩
  · intro heof hlen
    subst heof
    simp only at hlen
    unfold sendData
    simp [NAK, CRC_MODE, ACK, XMODEM_START_BLOCK, hlen]
    rw [if_neg (by omega), if_pos (by omega)]
  · intro heof
    subst heof
    exact sendData_nak_resend packagedBuffer bn mode lr h1 h2
  · intro heof
    subst heof
    have h := sendData_nak_resend packagedBuffer bn mode lr h1 h2
    rw [h]
    exact h

/-- C9 witness: the NAK-retransmission theorem applied to a sender past
the start block (cursor 2, one real block `[0x41]`, EOT not yet sent):
the NAK elicits the identical block-1 frame and leaves the state
unchanged, so a second NAK elicits it again. -/
theorem C9_nak_resends_identical_block_witness :
    (XMODEM_START_BLOCK < 2 ∧ 2 ≤ ([[], [0x41]] : List (List Nat)).length) ∧
    ((false = true → 2 = ([[], [0x41]] : List (List Nat)).length →
        sendData [[], [0x41]] ⟨2, false, Mode.normal, false⟩ [NAK] =
          (⟨2, false, Mode.normal, false⟩, [[EOT]])) ∧
     (false = false →
        sendData [[], [0x41]] ⟨2, false, Mode.normal, false⟩ [NAK] =
          (⟨2, false, Mode.normal, false⟩, [sendBlock 1 [0x41] Mode.normal])) ∧
     (false = false →
        sendData [[], [0x41]]
            ((sendData [[], [0x41]] ⟨2, false, Mode.normal, false⟩ [NAK]).1) [NAK] =
          sendData [[], [0x41]] ⟨2, false, Mode.normal, false⟩ [NAK])) :=
  ⟨⟨by decide, by decide⟩,
    C9_nak_resends_identical_block [[], [0x41]] ⟨2, false, Mode.normal, false⟩
      (by decide) (by decide)⟩

end Xmodem
